import Mathlib

/-!
Shallow embedding of the computational pipeline of the single-file dashboard
script `sp500_analysis_app.py` (an S&P 500 / CSI 300 performance analyzer).

Modelling conventions:
* Trading-day timestamps are modelled as integers (days); `timedelta(days=k)`
  becomes integer addition/subtraction.
* Prices, volumes and percentages (`float64` in the source) are modelled as
  exact rationals `Rat`.
* A pandas frame for one ticker is a list of rows in date order.
* The bulk `yf.download(tickers, start=..., end=...)` call is modelled as an
  oracle `download : Int -> Int -> String -> Option (List RawRow)` giving, for a
  requested window and a ticker, the per-ticker frame `data[ticker]`; `none`
  models the case where accessing `data[ticker]` raises (the `except: continue`
  path of `get_price_data`).  `some rows` is the frame (possibly with no rows).
* `NaN` cells produced by `mean()` of an empty column are modelled with
  `Option`.
-/

namespace SPApp

/-- A raw row of the per-ticker frame produced by the bulk download:
trading-day date, adjusted close (`Close`) and `Volume`. -/
structure RawRow where
  date : Int
  close : Rat
  volume : Rat
deriving DecidableEq

/-- A row after the `Daily % Change` column is added by
`df['Close'].pct_change() * 100` and the first row (whose change is `NaN`)
is removed by `df.dropna(inplace=True)`. -/
structure Row where
  date : Int
  close : Rat
  volume : Rat
  dailyChange : Rat
deriving DecidableEq

/-- Pandas `df['Daily % Change'] = df['Close'].pct_change() * 100` followed by
`df.dropna(inplace=True)`: every surviving row pairs with its predecessor and
carries the change `100 * (close_i / close_(i-1) - 1)`; the first row of the
frame is dropped. -/
def withChanges (rows : List RawRow) : List Row :=
  (rows.zip rows.tail).map fun pc =>
    { date := pc.2.date
      close := pc.2.close
      volume := pc.2.volume
      dailyChange := 100 * (pc.2.close / pc.1.close - 1) }

/-- The window trim
`df.loc[(df.index.date >= start_date) & (df.index.date <= end_date)]`. -/
def trimWindow (startDate endDate : Int) (rows : List Row) : List Row :=
  rows.filter fun r => decide (startDate ≤ r.date) && decide (r.date ≤ endDate)

/-- Buffer computation `start_buffer = pd.to_datetime(start_date) - timedelta(days=5)`. -/
def bufferStart (startDate : Int) : Int := startDate - 5

/-- Buffer computation `end_buffer = pd.to_datetime(end_date) + timedelta(days=1)`. -/
def bufferEnd (endDate : Int) : Int := endDate + 1

/-- Model of `get_price_data(tickers, start_date, end_date)`: downloads over the
buffered window, then for each ticker adds the `Daily % Change` column, drops
`NaN` rows, trims to `[start_date, end_date]` and stores the frame; a ticker
whose `data[ticker]` access raises (`download ... t = none`) is skipped by the
`except Exception: continue` clause. -/
def get_price_data (tickers : List String)
    (download : Int → Int → String → Option (List RawRow))
    (startDate endDate : Int) : List (String × List Row) :=
  let data := download (bufferStart startDate) (bufferEnd endDate)
  tickers.filterMap fun t =>
    (data t).map fun rows => (t, trimWindow startDate endDate (withChanges rows))

/-- Pandas `df['Daily % Change'].sum()`: pandas sums an empty column to `0.0`. -/
def perfOfFrame (rows : List Row) : Rat :=
  (rows.map fun r => r.dailyChange).sum

/-- Arithmetic mean of a list of rationals (`Series.mean` on a nonempty
column). -/
def meanOfList (l : List Rat) : Rat := l.sum / l.length

/-- Pandas `df['Volume'].mean()`: `NaN` (here `none`) on an empty frame. -/
def avgVolumeOfFrame (rows : List Row) : Option Rat :=
  if rows.isEmpty then none else some (meanOfList (rows.map fun r => r.volume))

/-- Model of `compute_performance(price_data)`: per-ticker sum of daily percent changes
and per-ticker mean volume, in the iteration order of `price_data`. -/
def compute_performance (price_data : List (String × List Row)) :
    List (String × Rat) × List (String × Option Rat) :=
  (price_data.map fun p => (p.1, perfOfFrame p.2),
   price_data.map fun p => (p.1, avgVolumeOfFrame p.2))

/-- One row of the constituent metadata table: `Symbol`, `Security`,
`GICS Sector`, `GICS Sub-Industry`. -/
structure MetaRow where
  symbol : String
  security : String
  sector : String
  subIndustry : String
deriving DecidableEq

/-- Ascending comparison of two records by a rational sort key. -/
def keyLe {α : Type} (key : α → Rat) : α → α → Prop := fun a b => key a ≤ key b

instance {α : Type} (key : α → Rat) : DecidableRel (keyLe key) := fun a b =>
  inferInstanceAs (Decidable (key a ≤ key b))

instance {α : Type} (key : α → Rat) : IsTotal α (keyLe key) :=
  ⟨fun a b => le_total (key a) (key b)⟩

instance {α : Type} (key : α → Rat) : IsTrans α (keyLe key) :=
  ⟨fun _ _ _ h1 h2 => le_trans h1 h2⟩

/-- Model of `DataFrame.sort_values(by=..., ascending=...)` with the default
`kind='quicksort'`.  numpy's `argsort(kind='quicksort')` on arrays below the
introsort partition cutoff is a plain insertion sort, which is stable, and
pandas (`core/sorting.py, nargsort`) obtains the descending order by reversing
the ascending argsort (`indexer = indexer[::-1]`); both aspects are modelled
here.  (For larger arrays numpy partitions first, so the order of equal keys
is implementation-defined; no theorem below about tie ORDER is applied beyond
the insertion-sort regime.) -/
def sortValuesBy {α : Type} (key : α → Rat) (ascending : Bool) (l : List α) :
    List α :=
  let s := l.insertionSort (keyLe key)
  if ascending then s else s.reverse

/-- A row of the table built by `display_top_movers`: ticker, merged
`Security` (`none` models the `NaN` of an unmatched left join), `Return` and
mapped `Avg Volume`. -/
structure MoverRow where
  ticker : String
  security : Option String
  ret : Rat
  avgVol : Option Rat
deriving DecidableEq

/-- Pandas `df['Ticker'].map(avg_volume)`: dictionary lookup of the mean volume of a
ticker; a ticker absent from the dictionary maps to `NaN` (`none`). -/
def mapVolume (avgVol : List (String × Option Rat)) (t : String) : Option Rat :=
  match avgVol with
  | [] => none
  | q :: rest => if q.1 == t then q.2 else mapVolume rest t

/-- Frame construction `pd.DataFrame(performance.items(), ...)` followed by
`df['Avg Volume'] = df['Ticker'].map(avg_volume)` and the left merge with the
metadata on `Ticker = Symbol`: each performance row is kept (with `NaN`
security when unmatched) and is duplicated once per matching metadata row. -/
def mergeMovers (perf : List (String × Rat)) (avgVol : List (String × Option Rat))
    (metadata : List MetaRow) : List MoverRow :=
  perf.flatMap fun p =>
    let vol := mapVolume avgVol p.1
    match metadata.filter fun m => m.symbol == p.1 with
    | [] => [{ ticker := p.1, security := none, ret := p.2, avgVol := vol }]
    | ms => ms.map fun m =>
        { ticker := p.1, security := some m.security, ret := p.2, avgVol := vol }

/-- Model of `display_top_movers(performance, avg_volume, metadata, title, ascending)`:
build the merged frame, `sort_values(by='Return', ascending=ascending)`, then
`.head(10)`.  (The `title`, index renumbering and cell styling are rendering
only and are not modelled.) -/
def display_top_movers (perf : List (String × Rat))
    (avgVol : List (String × Option Rat)) (metadata : List MetaRow)
    (ascending : Bool) : List MoverRow :=
  (sortValuesBy (fun r => r.ret) ascending (mergeMovers perf avgVol metadata)).take 10

/-- numpy/pandas rounding of a scalar to an integer: round half to even.
With `f = ⌊x⌋` and `t = ⌊2x⌋`: the fractional part of `x` is below `1/2` iff
`t = 2f`; it is exactly `1/2` (the tie, which goes to the even neighbour) iff
`2x` is the integer `t = 2f + 1`; otherwise it is above `1/2`. -/
def roundHalfEven (x : Rat) : Int :=
  let f : Int := Int.floor x
  let t : Int := Int.floor (2 * x)
  if t = 2 * f then f
  else if 2 * x = (t : Rat) then (if f % 2 = 0 then f else f + 1)
  else f + 1

/-- Pandas `DataFrame.round(2)` applied to one cell. -/
def round2 (x : Rat) : Rat := (roundHalfEven (100 * x) : Int) / 100

/-- A row of the table built by `display_group_performance`: group key,
`Avg Return (%)` and `Avg Volume` (which is `NaN` when every constituent
volume is `NaN`). -/
structure GroupRow where
  group : String
  avgReturn : Rat
  avgVolume : Option Rat
deriving DecidableEq

/-- The merged frame of `display_group_performance` restricted to the rows
that carry a group key: a performance row with no metadata match gets a `NaN`
group from the left join and is then discarded by `groupby`, so only matched
rows appear, one per matching metadata row. -/
def mergeGroups (perf : List (String × Rat)) (avgVol : List (String × Option Rat))
    (metadata : List MetaRow) (groupOf : MetaRow → String) :
    List (String × Rat × Option Rat) :=
  perf.flatMap fun p =>
    (metadata.filter fun m => m.symbol == p.1).map fun m =>
      (groupOf m, p.2, mapVolume avgVol p.1)

/-- The distinct group keys of the merged frame, in order of first appearance.
(pandas `groupby` lists group keys in sorted order, but the subsequent
`sort_values(by='Return', ascending=False)` reorders the rows by mean return
anyway, so only the tie order among groups of equal mean — asserted by no
claim — differs from this model.) -/
def groupKeys (merged : List (String × Rat × Option Rat)) : List String :=
  merged.foldl (fun acc r => if r.1 ∈ acc then acc else acc ++ [r.1]) []

/-- Aggregation `groupby(group_col).agg(mean of Return, mean of Avg Volume)` over
the merged frame: one row per group key, carrying the mean return over all of
the group's rows (`Return` is never `NaN`) and the mean volume over the
group's non-`NaN` volumes (`NaN` when no entry remains). -/
def groupRowsOf (perf : List (String × Rat)) (avgVol : List (String × Option Rat))
    (metadata : List MetaRow) (groupOf : MetaRow → String) : List GroupRow :=
  (groupKeys (mergeGroups perf avgVol metadata groupOf)).map fun g =>
    GroupRow.mk g
      (meanOfList (((mergeGroups perf avgVol metadata groupOf).filter
        fun r => r.1 == g).map fun r => r.2.1))
      (if (((mergeGroups perf avgVol metadata groupOf).filter
            fun r => r.1 == g).filterMap fun r => r.2.2).isEmpty then none
       else some (meanOfList (((mergeGroups perf avgVol metadata groupOf).filter
            fun r => r.1 == g).filterMap fun r => r.2.2)))

/-- Model of `display_group_performance(performance, avg_volume, metadata, group_col,
title)`: merge, `groupby(group_col).agg(mean)`, sort by mean return
descending, `round(2)` on both numeric columns. -/
def display_group_performance (perf : List (String × Rat))
    (avgVol : List (String × Option Rat)) (metadata : List MetaRow)
    (groupOf : MetaRow → String) : List GroupRow :=
  (sortValuesBy (fun r => r.avgReturn) false
      (groupRowsOf perf avgVol metadata groupOf)).map fun r =>
    { group := r.group, avgReturn := round2 r.avgReturn,
      avgVolume := r.avgVolume.map round2 }

/-- One row of the `CSI 300.xlsx` sheet: raw `Ticker`, `Company`, `Sector`,
`Industry Group`. -/
structure CsiRow where
  ticker : String
  company : String
  sector : String
  industryGroup : String
deriving DecidableEq

/-- Python `str.strip()` at the character-list level: remove leading and
trailing whitespace.  (Python strips the full Unicode whitespace class; the
tickers the claims concern are ASCII, where the two notions agree.) -/
def stripChars (cs : List Char) : List Char :=
  ((cs.dropWhile Char.isWhitespace).reverse.dropWhile Char.isWhitespace).reverse

/-- Model of `clean_ticker(raw)`: `ticker = str(raw).strip()`, then
`ticker[:6] if ticker[:6].isdigit() else None`.  Python slicing keeps the
whole string when it is shorter than 6 characters, and `str.isdigit` is false
on the empty string and true when every character is a digit. -/
def clean_ticker (raw : String) : Option String :=
  if !((stripChars raw.toList).take 6).isEmpty
      && ((stripChars raw.toList).take 6).all Char.isDigit then
    some (String.mk ((stripChars raw.toList).take 6))
  else none

/-- Model of `fix_ticker(ticker)`: append `.SS` when the cleaned ticker starts with
`6`, `.SZ` when it starts with `0` or `3`, otherwise `None`.  `startswith` on
a one-character pattern is a first-character test. -/
def fix_ticker (ticker : String) : Option String :=
  match ticker.toList with
  | [] => none
  | c :: _ =>
    if c == '6' then some (ticker ++ (".SS"))
    else if c == '0' || c == '3' then some (ticker ++ (".SZ"))
    else none

/-- The `Symbol` a raw CSI row ends up with: `clean_ticker` then `fix_ticker`;
`none` at either stage models the `NaN` removed by the two
`df.dropna(subset=...)` calls. -/
def csiSymbol (raw : String) : Option String :=
  (clean_ticker raw).bind fix_ticker

/-- Model of `load_csi300_metadata()` on the rows of the spreadsheet: clean and fix the
ticker, drop the rows where either stage yields `None`, and rename
`Company`/`Sector`/`Industry Group` to the S&P column names. -/
def load_csi300_metadata (rows : List CsiRow) : List MetaRow :=
  rows.filterMap fun r =>
    (csiSymbol r.ticker).map fun s =>
      { symbol := s, security := r.company, sector := r.sector,
        subIndustry := r.industryGroup }

/-- Symbol extraction `metadata['Symbol'].dropna().unique().tolist()`: first occurrences, in
order. -/
def uniqueFirst (l : List String) : List String :=
  l.foldl (fun acc x => if x ∈ acc then acc else acc ++ [x]) []

/-- Observable steps of one top-to-bottom run of the script, in order:
the metadata fetch (network for the S&P variant), the bulk price download
(network) with the buffered window it requests, the call to
`compute_performance`, and each rendered table. -/
inductive Event where
  | metadataLoad
  | priceDownload (bufStart bufEnd : Int)
  | computePerf
  | renderTable (title : String)
deriving DecidableEq

/-- How a run ends: stopped at `st.error(...)` + `st.stop()`, or fully
rendered (carrying the per-ticker performance it rendered from). -/
inductive Outcome where
  | error (msg : String)
  | rendered (performance : List (String × Rat))
deriving DecidableEq

/-- The inputs of one run: the two `st.date_input` values and oracles for the
two external data sources (constituent metadata and the price provider). -/
structure AppInput where
  startDate : Int
  endDate : Int
  metadata : List MetaRow
  download : Int → Int → String → Option (List RawRow)

/-- One top-to-bottom run of the script body (lines 102-147): validate the
dates (`if start_date > end_date: st.error(...); st.stop()`), load the
metadata, extract the unique symbols, download prices, stop with the
no-valid-data error when `price_data` is empty, otherwise compute performance
and render the four tables.  The returned event list records the steps that
were reached, in order. -/
def runApp (inp : AppInput) : Outcome × List Event :=
  if inp.startDate > inp.endDate then
    (Outcome.error ("⚠️ Start date must be before end date."), [])
  else
    let tickers := uniqueFirst (inp.metadata.map fun m => m.symbol)
    let events := [Event.metadataLoad,
                   Event.priceDownload (bufferStart inp.startDate) (bufferEnd inp.endDate)]
    let price_data := get_price_data tickers inp.download inp.startDate inp.endDate
    if price_data.isEmpty then
      (Outcome.error ("⚠️ No valid data returned. Try a wider or different date range."),
       events)
    else
      let pa := compute_performance price_data
      (Outcome.rendered pa.1,
       events ++ [Event.computePerf,
                  Event.renderTable ("Top 10 Gainers"),
                  Event.renderTable ("Top 10 Losers"),
                  Event.renderTable ("Sector Performance"),
                  Event.renderTable ("Industry Group Performance")])

/-- The per-ticker performance values, read off the claim's words ("the
per-ticker performance values of the constituents in that group"): the
performance entries of the tickers having a metadata row in group `g`.  Used
as the comparison target for the group-average claim. -/
def constituentPerf (perf : List (String × Rat)) (metadata : List MetaRow)
    (groupOf : MetaRow → String) (g : String) : List Rat :=
  (perf.filter fun p => metadata.any fun m => m.symbol == p.1 && groupOf m == g).map
    fun p => p.2

/-- Default row used only to give `List.getD` a base value in indexed
restatements of sums. -/
def rawDefault : RawRow := { date := 0, close := 0, volume := 0 }

theorem sortValuesBy_perm {α : Type} (key : α → Rat) (ascending : Bool)
    (l : List α) : (sortValuesBy key ascending l).Perm l := by
  unfold sortValuesBy
  cases ascending with
  | true => simpa using List.perm_insertionSort (keyLe key) l
  | false =>
    simpa using (List.reverse_perm _).trans (List.perm_insertionSort (keyLe key) l)

theorem sortValuesBy_pairwise {α : Type} (key : α → Rat) (ascending : Bool)
    (l : List α) :
    (sortValuesBy key ascending l).Pairwise
      (fun a b => if ascending then key a ≤ key b else key b ≤ key a) := by
  unfold sortValuesBy
  cases ascending with
  | true =>
    simpa using List.sorted_insertionSort (keyLe key) l
  | false =>
    simp only [if_neg, Bool.false_eq_true, if_false]
    rw [List.pairwise_reverse]
    simpa using List.sorted_insertionSort (keyLe key) l

/-- Claim C4: for every input where the selected start date is after the
selected end date, the run stops with the inline error message
`Start date must be before end date.` and its event trace is empty — in
particular neither the metadata load nor the price download (the only
network steps) is ever reached. -/
theorem c4_date_validation_stops_before_network (inp : AppInput)
    (h : inp.startDate > inp.endDate) :
    runApp inp = (Outcome.error ("⚠️ Start date must be before end date."), []) := by
  simp [runApp, h]

theorem c4_witness :
    runApp { startDate := 5, endDate := 3, metadata := [],
             download := fun _ _ _ => none }
      = (Outcome.error ("⚠️ Start date must be before end date."), []) :=
  c4_date_validation_stops_before_network _ (by norm_num)

/-- Claim C9: when the selected start date equals the selected end date the
strict check `start_date > end_date` does not fire: the run is not stopped by
the date-validation error and the price download step is reached (it appears
in the event trace, with the buffered window). -/
theorem c9_equal_dates_pass_validation (inp : AppInput)
    (h : inp.startDate = inp.endDate) :
    Event.priceDownload (bufferStart inp.startDate) (bufferEnd inp.endDate)
        ∈ (runApp inp).2
      ∧ (runApp inp).1 ≠ Outcome.error ("⚠️ Start date must be before end date.") := by
  have hnot : ¬ inp.startDate > inp.endDate := by omega
  unfold runApp
  rw [if_neg hnot]
  by_cases hpd :
      (get_price_data (uniqueFirst (inp.metadata.map fun m => m.symbol))
        inp.download inp.startDate inp.endDate).isEmpty <;>
    simp [hpd]

theorem c9_witness :
    Event.priceDownload (bufferStart 7) (bufferEnd 7)
        ∈ (runApp { startDate := 7, endDate := 7, metadata := [],
                    download := fun _ _ _ => none }).2
      ∧ (runApp { startDate := 7, endDate := 7, metadata := [],
                  download := fun _ _ _ => none }).1
          ≠ Outcome.error ("⚠️ Start date must be before end date.") :=
  c9_equal_dates_pass_validation _ rfl

/-- Claim C8: when the dates pass validation but `get_price_data` returns an
empty mapping, the run stops with the no-valid-data error; its event trace
ends at the price download, so no performance computation and no table
rendering is reached. -/
theorem c8_empty_price_data_halts (inp : AppInput)
    (hdates : ¬ inp.startDate > inp.endDate)
    (hempty : get_price_data (uniqueFirst (inp.metadata.map fun m => m.symbol))
        inp.download inp.startDate inp.endDate = []) :
    runApp inp
        = (Outcome.error ("⚠️ No valid data returned. Try a wider or different date range."),
           [Event.metadataLoad,
            Event.priceDownload (bufferStart inp.startDate) (bufferEnd inp.endDate)])
      ∧ Event.computePerf ∉ (runApp inp).2
      ∧ ∀ s, Event.renderTable s ∉ (runApp inp).2 := by
  have hrun : runApp inp
      = (Outcome.error ("⚠️ No valid data returned. Try a wider or different date range."),
         [Event.metadataLoad,
          Event.priceDownload (bufferStart inp.startDate) (bufferEnd inp.endDate)]) := by
    unfold runApp
    rw [if_neg hdates]
    simp [hempty]
  refine ⟨hrun, ?_, ?_⟩
  · rw [hrun]; simp
  · intro s; rw [hrun]; simp

theorem c8_witness :
    runApp { startDate := 0, endDate := 1,
             metadata := [{ symbol := ("AAA"), security := ("a"),
                            sector := ("S"), subIndustry := ("I") }],
             download := fun _ _ _ => none }
        = (Outcome.error ("⚠️ No valid data returned. Try a wider or different date range."),
           [Event.metadataLoad, Event.priceDownload (bufferStart 0) (bufferEnd 1)])
      ∧ Event.computePerf
          ∉ (runApp { startDate := 0, endDate := 1,
                      metadata := [{ symbol := ("AAA"), security := ("a"),
                                     sector := ("S"), subIndustry := ("I") }],
                      download := fun _ _ _ => none }).2
      ∧ ∀ s, Event.renderTable s
          ∉ (runApp { startDate := 0, endDate := 1,
                      metadata := [{ symbol := ("AAA"), security := ("a"),
                                     sector := ("S"), subIndustry := ("I") }],
                      download := fun _ _ _ => none }).2 :=
  c8_empty_price_data_halts _ (by norm_num) (by decide)

/-- Claim C2 (amended): a ticker whose access into the download result raises
(`download ... t = none`) is silently dropped — it has no entry in the
price-data mapping; but a ticker that is present in the download result is
always stored, and when its frame has no surviving rows it is stored as an
empty frame and receives the performance entry `0` (the pandas sum of an
empty column), so it does appear in the downstream outputs. -/
theorem c2_failed_fetch_skipped_but_empty_frame_kept (tickers : List String)
    (download : Int → Int → String → Option (List RawRow)) (s e : Int)
    (t : String) :
    (download (bufferStart s) (bufferEnd e) t = none →
      t ∉ (get_price_data tickers download s e).map fun p => p.1)
  ∧ (∀ rows, t ∈ tickers → download (bufferStart s) (bufferEnd e) t = some rows →
      (t, trimWindow s e (withChanges rows)) ∈ get_price_data tickers download s e)
  ∧ (∀ rows, t ∈ tickers → download (bufferStart s) (bufferEnd e) t = some rows →
      trimWindow s e (withChanges rows) = [] →
      (t, (0 : Rat)) ∈ (compute_performance (get_price_data tickers download s e)).1) := by
  refine ⟨?_, ?_, ?_⟩
  · intro hnone hmem
    rcases List.mem_map.mp hmem with ⟨p, hp, hpt⟩
    rcases List.mem_filterMap.mp hp with ⟨u, _, hu⟩
    rcases Option.map_eq_some.mp hu with ⟨rows, hrows, hpu⟩
    have : u = t := by rw [← hpt, ← hpu]
    rw [this] at hrows
    rw [hrows] at hnone
    exact Option.noConfusion hnone
  · intro rows ht hrows
    exact List.mem_filterMap.mpr ⟨t, ht, by rw [hrows]; rfl⟩
  · intro rows ht hrows htrim
    have hmem : (t, trimWindow s e (withChanges rows)) ∈ get_price_data tickers download s e :=
      List.mem_filterMap.mpr ⟨t, ht, by rw [hrows]; rfl⟩
    rw [htrim] at hmem
    show (t, (0 : Rat))
        ∈ (get_price_data tickers download s e).map fun p => (p.1, perfOfFrame p.2)
    exact List.mem_map.mpr ⟨(t, ([] : List Row)), hmem, rfl⟩

/-- Claim C2 counterexample: a ticker whose fetched result contains no rows is
NOT dropped: with a download result holding an empty frame for ticker `A`,
`get_price_data` stores an entry for `A` (an empty frame), the ticker gets the
performance entry `0`, and it appears as a row of the top-movers table —
contradicting "no entry in the price-data mapping, no performance entry, no
top-movers row". -/
theorem c2_counterexample :
    get_price_data [("A")] (fun _ _ _ => some []) 0 5 = [(("A"), [])]
  ∧ (compute_performance [(("A"), [])]).1 = [(("A"), (0 : Rat))]
  ∧ display_top_movers [(("A"), 0)] [(("A"), none)] [] false
      = [{ ticker := ("A"), security := none, ret := 0, avgVol := none }] := by
  exact ⟨by decide, by decide, by decide⟩

theorem c2_witness :
    (("A") ∉ (get_price_data [("A"), ("B")]
        (fun _ _ u => if u == ("B") then some [] else none) 0 1).map fun p => p.1)
  ∧ ((("B"), (0 : Rat)) ∈ (compute_performance (get_price_data [("A"), ("B")]
        (fun _ _ u => if u == ("B") then some [] else none) 0 1)).1) :=
  ⟨(c2_failed_fetch_skipped_but_empty_frame_kept [("A"), ("B")]
      (fun _ _ u => if u == ("B") then some [] else none) 0 1 ("A")).1 (by decide),
   (c2_failed_fetch_skipped_but_empty_frame_kept [("A"), ("B")]
      (fun _ _ u => if u == ("B") then some [] else none) 0 1 ("B")).2.2 []
      (by decide) (by decide) (by decide)⟩

/-- Claim C3 (amended): the table produced by `display_top_movers` is the
first 10 rows of a rearrangement of the merged performance rows that is
totally ordered by the `Return` scalar — ascending for the losers table,
descending for the gainers table.  The relative order of rows with equal
`Return` is NOT the original input order in general (the default pandas sort
is an unstable quicksort, and the descending order is produced by reversing
an ascending order). -/
theorem c3_top_movers_sorted_by_return (perf : List (String × Rat))
    (avgVol : List (String × Option Rat)) (metadata : List MetaRow)
    (ascending : Bool) :
    (sortValuesBy (fun r : MoverRow => r.ret) ascending
        (mergeMovers perf avgVol metadata)).Perm (mergeMovers perf avgVol metadata)
  ∧ (sortValuesBy (fun r : MoverRow => r.ret) ascending
        (mergeMovers perf avgVol metadata)).Pairwise
      (fun a b => if ascending then a.ret ≤ b.ret else b.ret ≤ a.ret)
  ∧ display_top_movers perf avgVol metadata ascending
      = (sortValuesBy (fun r : MoverRow => r.ret) ascending
          (mergeMovers perf avgVol metadata)).take 10 :=
  ⟨sortValuesBy_perm _ _ _, sortValuesBy_pairwise _ _ _, rfl⟩

/-- Claim C3 counterexample: two tickers `A`, `B` in that input order with
equal returns.  In the gainers table (`ascending=False`) the ties come out in
REVERSE input order — `B` before `A` — because pandas reverses the ascending
argsort; so ties are not broken by original input order as claimed. -/
theorem c3_counterexample :
    display_top_movers [(("A"), 1), (("B"), 1)] [(("A"), some 5), (("B"), some 5)]
        [{ symbol := ("A"), security := ("Alpha"), sector := ("S"), subIndustry := ("I") },
         { symbol := ("B"), security := ("Beta"), sector := ("S"), subIndustry := ("I") }]
        false
      = [{ ticker := ("B"), security := some ("Beta"), ret := 1, avgVol := some 5 },
         { ticker := ("A"), security := some ("Alpha"), ret := 1, avgVol := some 5 }]
  ∧ ([{ ticker := ("B"), security := some ("Beta"), ret := 1, avgVol := some 5 },
      { ticker := ("A"), security := some ("Alpha"), ret := 1, avgVol := some 5 }] :
        List MoverRow)
      ≠ [{ ticker := ("A"), security := some ("Alpha"), ret := 1, avgVol := some 5 },
         { ticker := ("B"), security := some ("Beta"), ret := 1, avgVol := some 5 }] := by
  exact ⟨by decide, by decide⟩

/-- Claim C6: `get_price_data` requests the window padded by 5 days before
the start and 1 day after the end (it depends on the download oracle only
through that buffered window), and trims the resulting frames so that only
rows dated within `[start_date, end_date]` inclusive remain; every in-window
row of a stored ticker's frame is retained. -/
theorem c6_buffered_request_and_trim (tickers : List String)
    (d1 d2 : Int → Int → String → Option (List RawRow)) (s e : Int) :
    (bufferStart s = s - 5 ∧ bufferEnd e = e + 1 ∧ bufferStart s < s ∧ e < bufferEnd e)
  ∧ (d1 (bufferStart s) (bufferEnd e) = d2 (bufferStart s) (bufferEnd e) →
      get_price_data tickers d1 s e = get_price_data tickers d2 s e)
  ∧ (get_price_data tickers d1 s e).Forall
      (fun p => p.2.Forall fun r => s ≤ r.date ∧ r.date ≤ e)
  ∧ (∀ t rows, t ∈ tickers → d1 (bufferStart s) (bufferEnd e) t = some rows →
      (t, trimWindow s e (withChanges rows)) ∈ get_price_data tickers d1 s e) := by
  refine ⟨⟨rfl, rfl, by unfold bufferStart; omega, by unfold bufferEnd; omega⟩, ?_, ?_, ?_⟩
  · intro h
    unfold get_price_data
    rw [h]
  · rw [List.forall_iff_forall_mem]
    intro p hp
    rcases List.mem_filterMap.mp hp with ⟨u, _, hu⟩
    rcases Option.map_eq_some.mp hu with ⟨rows, _, hpu⟩
    rw [← hpu]
    rw [List.forall_iff_forall_mem]
    intro r hr
    have hcond := List.of_mem_filter hr
    rcases Bool.and_eq_true_iff.mp hcond with ⟨h1, h2⟩
    exact ⟨of_decide_eq_true h1, of_decide_eq_true h2⟩
  · intro t rows ht hrows
    exact List.mem_filterMap.mpr ⟨t, ht, by rw [hrows]; rfl⟩

theorem c6_witness :
    (bufferStart 10 = 10 - 5 ∧ bufferEnd 12 = 12 + 1
      ∧ bufferStart 10 < 10 ∧ (12 : Int) < bufferEnd 12)
  ∧ (get_price_data [("A")] (fun _ _ _ => some [{ date := 8, close := 100, volume := 7 }])
        10 12).Forall (fun p => p.2.Forall fun r => 10 ≤ r.date ∧ r.date ≤ 12)
  ∧ (("A"), trimWindow 10 12 (withChanges [{ date := 8, close := 100, volume := 7 }]))
      ∈ get_price_data [("A")] (fun _ _ _ => some [{ date := 8, close := 100, volume := 7 }])
          10 12 :=
  ⟨(c6_buffered_request_and_trim [("A")]
      (fun _ _ _ => some [{ date := 8, close := 100, volume := 7 }])
      (fun _ _ _ => some [{ date := 8, close := 100, volume := 7 }]) 10 12).1,
   (c6_buffered_request_and_trim [("A")]
      (fun _ _ _ => some [{ date := 8, close := 100, volume := 7 }])
      (fun _ _ _ => some [{ date := 8, close := 100, volume := 7 }]) 10 12).2.2.1,
   (c6_buffered_request_and_trim [("A")]
      (fun _ _ _ => some [{ date := 8, close := 100, volume := 7 }])
      (fun _ _ _ => some [{ date := 8, close := 100, volume := 7 }]) 10 12).2.2.2
      ("A") [{ date := 8, close := 100, volume := 7 }] (by decide) rfl⟩

/-- Claim C7 (amended): the cleaned CSI ticker is the first up-to-6
characters of the stripped raw ticker and is kept exactly when it is nonempty
and all digits — it may be SHORTER than 6 characters when the raw ticker is
shorter; a cleaned ticker starting with `6` gets `.SS` appended, one starting
with `0` or `3` gets `.SZ` appended, and a row whose cleaned ticker starts
with any other character (or whose ticker fails cleaning) is dropped. -/
theorem c7_ticker_normalization :
    (∀ raw : String, clean_ticker raw = none → csiSymbol raw = none)
  ∧ (∀ (raw : String) (c : Char) (rest : List Char),
      clean_ticker raw = some (String.mk (c :: rest)) →
        ((c :: rest) = (stripChars raw.toList).take 6
      ∧ (c :: rest).length ≤ 6
      ∧ (c :: rest).all Char.isDigit = true
      ∧ (c = ('6') → csiSymbol raw = some (String.mk (c :: rest) ++ (".SS")))
      ∧ ((c = ('0') ∨ c = ('3')) → csiSymbol raw = some (String.mk (c :: rest) ++ (".SZ")))
      ∧ (c ≠ ('6') → c ≠ ('0') → c ≠ ('3') → csiSymbol raw = none))) := by
  constructor
  · intro raw h
    unfold csiSymbol
    rw [h]
    rfl
  · intro raw c rest h
    have hsym : csiSymbol raw = fix_ticker (String.mk (c :: rest)) := by
      unfold csiSymbol
      rw [h]
      rfl
    unfold clean_ticker at h
    split at h
    case isFalse => exact absurd h (by simp)
    case isTrue hcond =>
      have hs : (stripChars raw.toList).take 6 = c :: rest := by
        have := Option.some.inj h
        exact congrArg String.data this
      rcases Bool.and_eq_true_iff.mp hcond with ⟨-, hdig⟩
      rw [hs] at hdig
      refine ⟨hs.symm, ?_, hdig, ?_, ?_, ?_⟩
      · rw [← hs]
        exact List.length_take_le 6 _
      · intro h6
        rw [hsym]
        unfold fix_ticker
        simp [h6]
      · intro h03
        rw [hsym]
        unfold fix_ticker
        rcases h03 with h0 | h3
        · simp [h0]
        · simp [h3]
      · intro h6 h0 h3
        rw [hsym]
        unfold fix_ticker
        simp [h6, h0, h3]

/-- Claim C7 counterexample: the raw ticker `600` is only 3 characters, so
its cleaned form is not a 6-digit string; the claim says such a row is
dropped, but the code keeps it (Python `"600"[:6]` is `"600"` and
`"600".isdigit()` is true) and emits the symbol `600.SS`. -/
theorem c7_counterexample :
    load_csi300_metadata
        [{ ticker := ("600"), company := ("C"), sector := ("S"), industryGroup := ("I") }]
      = [{ symbol := ("600.SS"), security := ("C"), sector := ("S"), subIndustry := ("I") }]
  ∧ ((stripChars ("600").toList).take 6).length ≠ 6 := by
  exact ⟨by decide, by decide⟩

theorem c7_witness :
    csiSymbol ("600") = some (String.mk [('6'), ('0'), ('0')] ++ (".SS"))
  ∧ csiSymbol ("abc") = none :=
  ⟨((c7_ticker_normalization.2 ("600") ('6') [('0'), ('0')] (by decide)).2.2.2.1 rfl),
   (c7_ticker_normalization.1 ("abc") (by decide))⟩

/-- Claim C10: percentage changes are computed on the buffered series before
the window trim.  First conjunct (general): when a row dated before
`start_date` immediately precedes an in-window row, the surviving in-window
row carries the change relative to that pre-window close.  Remaining
conjuncts (concrete): ticker `A` has a pre-window close `100` at date `8` and
constant in-window closes `110` at dates `10` and `12` with window
`[10, 12]`; its total performance is `10` (the pre-window jump), although the
price never moves inside the window — so performance includes movement from
before the window's start. -/
theorem c10_prewindow_movement_counted :
    (∀ (p c : RawRow) (s e : Int), p.date < s → s ≤ c.date → c.date ≤ e →
      trimWindow s e (withChanges [p, c])
        = [{ date := c.date, close := c.close, volume := c.volume,
             dailyChange := 100 * (c.close / p.close - 1) }])
  ∧ get_price_data [("A")]
      (fun _ _ t => if t == ("A") then
        some [{ date := 8, close := 100, volume := 7 },
              { date := 10, close := 110, volume := 7 },
              { date := 12, close := 110, volume := 7 }] else none) 10 12
      = [(("A"),
          [{ date := 10, close := 110, volume := 7, dailyChange := 10 },
           { date := 12, close := 110, volume := 7, dailyChange := 0 }])]
  ∧ (compute_performance (get_price_data [("A")]
      (fun _ _ t => if t == ("A") then
        some [{ date := 8, close := 100, volume := 7 },
              { date := 10, close := 110, volume := 7 },
              { date := 12, close := 110, volume := 7 }] else none) 10 12)).1
      = [(("A"), 10)]
  ∧ ((10 : Rat) ≠ 0) := by
  refine ⟨?_, ?_, ?_, by norm_num⟩
  · intro p c s e hp hc1 hc2
    unfold trimWindow withChanges
    simp [hp, hc1, hc2, not_le.mpr hp]
  · norm_num [get_price_data, withChanges, trimWindow, bufferStart, bufferEnd,
      List.filterMap, List.filter]
  · norm_num [compute_performance, get_price_data, withChanges, trimWindow, perfOfFrame,
      bufferStart, bufferEnd, List.filterMap, List.filter]

theorem c10_witness :
    trimWindow 10 12 (withChanges [{ date := 8, close := 100, volume := 7 },
        { date := 10, close := 110, volume := 7 }])
      = [{ date := 10, close := 110, volume := 7, dailyChange := 100 * (110 / 100 - 1) }] :=
  c10_prewindow_movement_counted.1 { date := 8, close := 100, volume := 7 }
    { date := 10, close := 110, volume := 7 } 10 12 (by norm_num) (by norm_num) (by norm_num)

theorem perf_withChanges_eq_rangeSum : ∀ rows : List RawRow,
    perfOfFrame (withChanges rows)
      = ((List.range (rows.length - 1)).map fun i =>
          100 * ((rows.getD (i + 1) rawDefault).close
            / (rows.getD i rawDefault).close - 1)).sum
  | [] => by simp [withChanges, perfOfFrame]
  | [a] => by simp [withChanges, perfOfFrame]
  | a :: b :: rest => by
    have ih := perf_withChanges_eq_rangeSum (b :: rest)
    have hleft : perfOfFrame (withChanges (a :: b :: rest))
        = 100 * (b.close / a.close - 1) + perfOfFrame (withChanges (b :: rest)) := by
      simp [withChanges, perfOfFrame]
    rw [hleft, ih]
    have hlen : (a :: b :: rest).length - 1 = ((b :: rest).length - 1) + 1 := by
      simp
    rw [hlen, List.range_succ_eq_map]
    simp [List.map_map, Function.comp_def]

/-- Claim C1 (amended): the total performance produced by
`compute_performance` for a frame built from a price series is the plain sum
of the consecutive day-over-day percentage changes
`100 * (close_i / close_(i-1) - 1)`; for a series of exactly two closes this
sum equals `100 * (last_close / first_close - 1)`, but in general it is a
plain (non-compounded) sum and does not telescope to that expression. -/
theorem c1_performance_is_sum_of_pct_changes :
    (∀ (t : String) (rows : List RawRow), 2 ≤ rows.length →
      (compute_performance [(t, withChanges rows)]).1
        = [(t, ((List.range (rows.length - 1)).map fun i =>
            100 * ((rows.getD (i + 1) rawDefault).close
              / (rows.getD i rawDefault).close - 1)).sum)])
  ∧ (∀ (t : String) (a b : RawRow),
      (compute_performance [(t, withChanges [a, b])]).1
        = [(t, 100 * (b.close / a.close - 1))]) := by
  constructor
  · intro t rows _
    simp [compute_performance, perf_withChanges_eq_rangeSum]
  · intro t a b
    simp [compute_performance, withChanges, perfOfFrame]

/-- Claim C1 counterexample: the series with closes `1, 2, 1` on the
consecutive dates `0, 1, 2` (no missing days).  The sum of the daily
percentage changes is `+100 + (-50) = 50`, while the claimed telescoped value
`100 * (last_close / first_close - 1)` is `0` with the first close as base
and `-50` with the close after the first valid change as base; so the sum
does not telescope even with no missing days. -/
theorem c1_counterexample :
    (compute_performance (get_price_data [("A")]
        (fun _ _ t => if t == ("A") then
          some [{ date := 0, close := 1, volume := 10 },
                { date := 1, close := 2, volume := 10 },
                { date := 2, close := 1, volume := 10 }] else none) 0 2)).1
      = [(("A"), 50)]
  ∧ ((50 : Rat) ≠ 100 * (1 / 1 - 1))
  ∧ ((50 : Rat) ≠ 100 * (1 / 2 - 1)) := by
  refine ⟨?_, by norm_num, by norm_num⟩
  norm_num [compute_performance, get_price_data, withChanges, trimWindow, perfOfFrame,
    bufferStart, bufferEnd, List.filterMap, List.filter]

theorem c1_witness :
    (compute_performance [(("A"), withChanges
        [{ date := 0, close := 1, volume := 10 },
         { date := 1, close := 2, volume := 10 },
         { date := 2, close := 4, volume := 10 }])]).1
      = [(("A"), ((List.range
          (([{ date := 0, close := 1, volume := 10 },
             { date := 1, close := 2, volume := 10 },
             { date := 2, close := 4, volume := 10 }] : List RawRow).length - 1)).map fun i =>
          100 * ((([{ date := 0, close := 1, volume := 10 },
                    { date := 1, close := 2, volume := 10 },
                    { date := 2, close := 4, volume := 10 }] : List RawRow).getD (i + 1)
                rawDefault).close
            / (([{ date := 0, close := 1, volume := 10 },
                 { date := 1, close := 2, volume := 10 },
                 { date := 2, close := 4, volume := 10 }] : List RawRow).getD i
                rawDefault).close - 1)).sum)] :=
  c1_performance_is_sum_of_pct_changes.1 ("A") _ (by decide)

theorem filter_symbol_of_nodup (metadata : List MetaRow)
    (h : (metadata.map fun m => m.symbol).Nodup) (t : String) :
    (metadata.filter fun m => m.symbol == t) = []
  ∨ ∃ m, m ∈ metadata ∧ m.symbol = t
      ∧ (metadata.filter fun m2 => m2.symbol == t) = [m] := by
  induction metadata with
  | nil => left; rfl
  | cons m rest ih =>
    rw [List.map_cons, List.nodup_cons] at h
    rcases h with ⟨hnotin, hrest⟩
    by_cases hbeq : m.symbol = t
    · right
      refine ⟨m, List.mem_cons_self m rest, hbeq, ?_⟩
      rw [List.filter_cons_of_pos (by simp [hbeq])]
      have hfil : (rest.filter fun m2 => m2.symbol == t) = [] := by
        rw [List.filter_eq_nil_iff]
        intro m2 hm2 hc
        rw [beq_iff_eq] at hc
        exact hnotin (List.mem_map.mpr ⟨m2, hm2, by rw [hc, hbeq]⟩)
      rw [hfil]
    · rw [List.filter_cons_of_neg (by simp [hbeq])]
      rcases ih hrest with h1 | ⟨m1, hm1, hsym, hfil⟩
      · left; exact h1
      · right; exact ⟨m1, List.mem_cons_of_mem m hm1, hsym, hfil⟩

theorem mergeGroups_filter_eq_constituentPerf (perf : List (String × Rat))
    (avgVol : List (String × Option Rat)) (metadata : List MetaRow)
    (groupOf : MetaRow → String) (g : String)
    (h : (metadata.map fun m => m.symbol).Nodup) :
    ((mergeGroups perf avgVol metadata groupOf).filter fun r => r.1 == g).map
        (fun r => r.2.1)
      = constituentPerf perf metadata groupOf g := by
  induction perf with
  | nil => rfl
  | cons p rest ih =>
    unfold mergeGroups constituentPerf
    unfold mergeGroups constituentPerf at ih
    rw [List.flatMap_cons, List.filter_append, List.map_append, ih]
    rcases filter_symbol_of_nodup metadata h p.1 with hnil | ⟨m0, hm0, hsym0, hone⟩
    · rw [hnil]
      have hany : (metadata.any fun m => m.symbol == p.1 && groupOf m == g) = false := by
        rw [List.any_eq_false]
        intro m hm hc
        rcases Bool.and_eq_true_iff.mp hc with ⟨h1, -⟩
        have : m ∈ (metadata.filter fun m2 => m2.symbol == p.1) :=
          List.mem_filter.mpr ⟨hm, h1⟩
        rw [hnil] at this
        exact absurd this (List.not_mem_nil m)
      rw [List.filter_cons_of_neg (by rw [hany]; exact Bool.false_ne_true)]
      simp
    · rw [hone]
      by_cases hg : groupOf m0 = g
      · have hany : (metadata.any fun m => m.symbol == p.1 && groupOf m == g) = true :=
          List.any_eq_true.mpr ⟨m0, hm0, by simp [hsym0, hg]⟩
        rw [List.filter_cons_of_pos (by rw [hany])]
        simp [hg]
      · have hany : (metadata.any fun m => m.symbol == p.1 && groupOf m == g) = false := by
          rw [List.any_eq_false]
          intro m hm hc
          rcases Bool.and_eq_true_iff.mp hc with ⟨h1, h2⟩
          have hmem : m ∈ (metadata.filter fun m2 => m2.symbol == p.1) :=
            List.mem_filter.mpr ⟨hm, h1⟩
          rw [hone] at hmem
          rw [List.mem_singleton.mp hmem] at h2
          exact hg (by rw [← beq_iff_eq]; exact h2)
        rw [List.filter_cons_of_neg (by rw [hany]; exact Bool.false_ne_true)]
        simp [hg]

/-- Claim C5 (amended): provided the metadata symbols are distinct (each
ticker has one metadata row), every row of the table produced by
`display_group_performance` shows, for its group, the unweighted arithmetic
mean of the per-ticker performance values of the constituents of that group —
rounded to two decimal places by `DataFrame.round(2)`. -/
theorem c5_group_average_is_rounded_mean (perf : List (String × Rat))
    (avgVol : List (String × Option Rat)) (metadata : List MetaRow)
    (groupOf : MetaRow → String)
    (h : (metadata.map fun m => m.symbol).Nodup) :
    ∀ r ∈ display_group_performance perf avgVol metadata groupOf,
      r.avgReturn = round2 (meanOfList (constituentPerf perf metadata groupOf r.group)) := by
  intro r hr
  unfold display_group_performance at hr
  rcases List.mem_map.mp hr with ⟨r1, hr1, hfr⟩
  have hmem : r1 ∈ groupRowsOf perf avgVol metadata groupOf :=
    (sortValuesBy_perm (fun q : GroupRow => q.avgReturn) false _).mem_iff.mp hr1
  unfold groupRowsOf at hmem
  rcases List.mem_map.mp hmem with ⟨g, -, hr1g⟩
  rw [← hfr, ← hr1g]
  show round2 (meanOfList _) = round2 (meanOfList (constituentPerf perf metadata groupOf g))
  rw [mergeGroups_filter_eq_constituentPerf perf avgVol metadata groupOf g h]

/-- Claim C5 counterexample: one sector `S` with constituents `A` (performance
`0`) and `B` (performance `1/4`).  The unweighted mean is `1/8 = 0.125`, but
the displayed group value is `round(0.125, 2) = 0.12 = 3/25`; the displayed
value is the rounded mean, not the mean itself. -/
theorem c5_counterexample :
    display_group_performance [(("A"), 0), (("B"), 1 / 4)]
        [(("A"), some 1), (("B"), some 1)]
        [{ symbol := ("A"), security := ("a"), sector := ("S"), subIndustry := ("I") },
         { symbol := ("B"), security := ("b"), sector := ("S"), subIndustry := ("I") }]
        (fun m => m.sector)
      = [{ group := ("S"), avgReturn := 3 / 25, avgVolume := some 1 }]
  ∧ constituentPerf [(("A"), 0), (("B"), 1 / 4)]
        [{ symbol := ("A"), security := ("a"), sector := ("S"), subIndustry := ("I") },
         { symbol := ("B"), security := ("b"), sector := ("S"), subIndustry := ("I") }]
        (fun m => m.sector) ("S")
      = [0, 1 / 4]
  ∧ meanOfList [0, 1 / 4] = 1 / 8
  ∧ ((3 : Rat) / 25 ≠ 1 / 8) := by
  refine ⟨?_, by norm_num [constituentPerf, List.filter], by norm_num [meanOfList],
    by norm_num⟩
  norm_num [display_group_performance, groupRowsOf, mergeGroups, groupKeys, meanOfList,
    sortValuesBy, keyLe, round2, roundHalfEven, mapVolume, List.filter, List.filterMap]

theorem c5_witness :
    (GroupRow.mk ("S") 2 (some 4)).avgReturn
      = round2 (meanOfList (constituentPerf [(("A"), 2)]
          [{ symbol := ("A"), security := ("a"), sector := ("S"), subIndustry := ("I") }]
          (fun m => m.sector) ("S"))) := by
  have hd : display_group_performance [(("A"), 2)] [(("A"), some 4)]
      [{ symbol := ("A"), security := ("a"), sector := ("S"), subIndustry := ("I") }]
      (fun m => m.sector)
      = [GroupRow.mk ("S") 2 (some 4)] := by
    norm_num [display_group_performance, groupRowsOf, mergeGroups, groupKeys, meanOfList,
      sortValuesBy, keyLe, round2, roundHalfEven, mapVolume, List.filter, List.filterMap]
  exact c5_group_average_is_rounded_mean [(("A"), 2)] [(("A"), some 4)]
    [{ symbol := ("A"), security := ("a"), sector := ("S"), subIndustry := ("I") }]
    (fun m => m.sector) (by decide) (GroupRow.mk ("S") 2 (some 4))
    (by rw [hd]; exact List.mem_singleton.mpr rfl)

end SPApp
